import Mathlib

/-!
Verification development for the MEV bot startup and plugin-lifecycle code.

The definitions below are a shallow embedding of `src/cli.py` (configuration
loading, repair and CLI-argument overrides) and of
`src/producers/interface_producer.py` (the `InterfaceProducer` class:
interface/notifier registration, exchange-handle broadcast and replay,
pending-notification flush, stop).  Plugin names, service names and exchange
handles are represented by natural numbers; plugin instances are `Option Nat`
values, `none` standing for Python's `None`.
-/

namespace MEVBot

/-! ### Configuration and CLI-argument overrides (`src/cli.py`) -/

/-- The slice of the configuration document touched by
`update_config_with_args` in `src/cli.py`: the backtesting section
(enabled flag and data files), the trader and simulator enabled flags and
the trading risk.  Risk is a rational, faithfully representing the finite
float values the Python code compares and stores. -/
structure BotConfig where
  backtestingEnabled : Bool
  backtestingDataFiles : List Nat
  traderEnabled : Bool
  simulatorEnabled : Bool
  tradingRisk : Rat
deriving DecidableEq, Repr

/-- The startup arguments consumed by `update_config_with_args`
(`starting_args.backtesting`, `.backtesting_files`, `.simulate`, `.risk`).
`backtestingFiles = []` models both Python `None` and an empty list, which
are equally falsy in the `if starting_args.backtesting_files:` test. -/
structure StartingArgs where
  backtesting : Bool
  backtestingFiles : List Nat
  simulate : Bool
  risk : Option Rat
deriving DecidableEq, Repr

/-- The `if starting_args.backtesting:` block of `update_config_with_args`
(`src/cli.py` lines 60-66): optionally installs the backtesting data files,
then sets backtesting enabled, trader disabled, simulator enabled. -/
def apply_backtesting_args (args : StartingArgs) (c : BotConfig) : BotConfig :=
  if args.backtesting then
    let c1 := if args.backtestingFiles.isEmpty then c
      else { c with backtestingDataFiles := args.backtestingFiles }
    { c1 with backtestingEnabled := true, traderEnabled := false, simulatorEnabled := true }
  else c

/-- The `if starting_args.simulate:` block of `update_config_with_args`
(`src/cli.py` lines 68-70): trader disabled, simulator enabled. -/
def apply_simulate_args (args : StartingArgs) (c : BotConfig) : BotConfig :=
  if args.simulate then { c with traderEnabled := false, simulatorEnabled := true } else c

/-- The risk block of `update_config_with_args` (`src/cli.py` lines 72-73):
`if starting_args.risk is not None and 0 < starting_args.risk <= 1:` store
the override, otherwise leave the configured risk untouched. -/
def apply_risk_args (args : StartingArgs) (c : BotConfig) : BotConfig :=
  match args.risk with
  | some r => if 0 < r ∧ r ≤ 1 then { c with tradingRisk := r } else c
  | none => c

/-- `update_config_with_args` from `src/cli.py`: the three override blocks in
source order. -/
def update_config_with_args (args : StartingArgs) (c : BotConfig) : BotConfig :=
  apply_risk_args args (apply_simulate_args args (apply_backtesting_args args c))

/-! ### Startup configuration loading and repair (`src/cli.py`) -/

/-- Outcome of the first `config.read(should_raise=True, ...)` call inside
`_read_config`: success, a `NoProfileError` (declared profile missing or
invalid), or any other exception. -/
inductive ReadOutcome where
  | success
  | noProfile
  | otherFailure
deriving DecidableEq, Repr

/-- The startup error kinds relevant to configuration loading
(`MEV_commons.errors.ConfigError` and `.NoProfileError`). -/
inductive StartupError where
  | configError
  | noProfileError
deriving DecidableEq, Repr

/-- Which configuration a successful load ends with: the document as read
from disk, or the reconstructed document carrying the default profile. -/
inductive LoadedConfig where
  | asRead
  | defaultProfile
deriving DecidableEq, Repr

/-- Environment of `_read_config`.  `firstRead` is the outcome of the initial
raising read.  `defaultProfileAvailable` — Modelled from the spec:
`configuration_manager.set_default_profile` (the module
`src.configuration_manager` is not under `src/`); per the spec the single
repair pass selects a default profile, and when no default profile is
resolvable the repair itself fails fatally with `NoProfileError`. -/
structure ConfigReadEnv where
  firstRead : ReadOutcome
  defaultProfileAvailable : Bool
deriving DecidableEq, Repr

/-- Result of a load attempt: a loaded configuration or a fatal error. -/
inductive ReadResult where
  | loaded (profile : LoadedConfig)
  | failed (err : StartupError)
deriving DecidableEq, Repr

/-- `_read_config` from `src/cli.py` (lines 197-205), paired with the number
of repair attempts performed.  A raising read that fails with
`NoProfileError` triggers exactly one call to `_repair_with_default_profile`
followed by a non-raising re-read of a fresh configuration object; any other
exception is wrapped into `ConfigError` with no repair. -/
def read_config (env : ConfigReadEnv) : ReadResult × Nat :=
  match env.firstRead with
  | ReadOutcome.success => (ReadResult.loaded LoadedConfig.asRead, 0)
  | ReadOutcome.noProfile =>
      if env.defaultProfileAvailable then (ReadResult.loaded LoadedConfig.defaultProfile, 1)
      else (ReadResult.failed StartupError.noProfileError, 1)
  | ReadOutcome.otherFailure => (ReadResult.failed StartupError.configError, 0)

/-- `_validate_config` from `src/cli.py` (lines 208-216): if `config.validate()`
succeeds there is no error; otherwise a successful migration clears the
error and a failed migration raises `ConfigError`. -/
def validate_config (validateOk migrateOk : Bool) : Option StartupError :=
  if validateOk then none
  else if migrateOk then none
  else some StartupError.configError

/-- Environment of `_create_startup_config`.  `ensureProfileError` —
Modelled from the spec: `commands.ensure_profile` (the module `src.commands`
is not under `src/`); per the spec profile resolution either succeeds or
raises a profile/configuration error.  The remaining fields feed the in-source
control flow of `src/cli.py` lines 113-130. -/
structure StartupEnv where
  readEnv : ConfigReadEnv
  ensureProfileError : Option StartupError
  validateOk : Bool
  migrateOk : Bool
  tentaclesPathIsDir : Bool
  configFileEmptyOrMissing : Bool
deriving DecidableEq, Repr

/-- The body of the `try` block guarding profile resolution and validation in
`_create_startup_config`: `commands.ensure_profile` then `_validate_config`,
returning the first error raised, if any. -/
def profile_and_validation (env : StartupEnv) : Option StartupError :=
  match env.ensureProfileError with
  | some e => some e
  | none => validate_config env.validateOk env.migrateOk

/-- `_create_startup_config` from `src/cli.py` (lines 113-130), returning the
load result and the `is_first_startup` flag.  On first run a default
configuration is created and read without raising.  Otherwise `_read_config`
runs outside any guard, and a `NoProfileError`/`ConfigError` raised by
profile resolution or validation is re-raised only when the tentacles
directory exists (`os.path.isdir(TENTACLES_PATH)`); when it is absent the
error is swallowed and startup continues with the configuration as read. -/
def create_startup_config (env : StartupEnv) : ReadResult × Bool :=
  if env.configFileEmptyOrMissing then
    (ReadResult.loaded LoadedConfig.asRead, true)
  else
    match read_config env.readEnv with
    | (ReadResult.failed e, _) => (ReadResult.failed e, false)
    | (ReadResult.loaded cfg, _) =>
        match profile_and_validation env with
        | none => (ReadResult.loaded cfg, false)
        | some e =>
            if env.tentaclesPathIsDir then (ReadResult.failed e, false)
            else (ReadResult.loaded cfg, false)

/-! ### Plugin eligibility (`src/producers/interface_producer.py`) -/

/-- An interface plugin class as seen by `_is_interface_relevant`:
`enabled` is `service_api.is_enabled(interface_class)`, `requiredServices`
the `REQUIRED_SERVICES` list, `enabledInBacktesting` the value of
`service_api.is_enabled_in_backtesting(interface_class)`. -/
structure InterfaceClass where
  name : Nat
  enabled : Bool
  requiredServices : List Nat
  enabledInBacktesting : Bool
deriving DecidableEq, Repr

/-- A notifier plugin class as seen by `_is_notifier_relevant`:
`enabledInConfig` is `service_api.is_enabled_in_config(notifier_class, config)`,
`requiredServices` the `REQUIRED_SERVICES` list. -/
structure NotifierClass where
  name : Nat
  enabledInConfig : Bool
  requiredServices : List Nat
deriving DecidableEq, Repr

/-- The bot-wide environment consulted by the eligibility checks: the
tentacle-activation set (`tentacles_setup_config`) and the set of services
`s` for which `s.get_is_enabled(config)` holds. -/
structure BotEnv where
  activatedTentacles : List Nat
  enabledServices : List Nat
deriving DecidableEq, Repr

/-- `_is_interface_relevant` from `src/producers/interface_producer.py`
(lines 143-150): enabled, activated in the tentacles setup config, every
required service enabled, and `(not backtesting_enabled or
(backtesting_enabled and is_enabled_in_backtesting))`. -/
def is_interface_relevant (env : BotEnv) (c : InterfaceClass) (backtestingEnabled : Bool) :
    Bool :=
  c.enabled && env.activatedTentacles.contains c.name &&
    c.requiredServices.all (fun s => env.enabledServices.contains s) &&
    (!backtestingEnabled || (backtestingEnabled && c.enabledInBacktesting))

/-- `_is_notifier_relevant` from `src/producers/interface_producer.py`
(lines 152-159): enabled in config, activated, every required service
enabled, and not backtesting. -/
def is_notifier_relevant (env : BotEnv) (c : NotifierClass) (backtestingEnabled : Bool) :
    Bool :=
  c.enabledInConfig && env.activatedTentacles.contains c.name &&
    c.requiredServices.all (fun s => env.enabledServices.contains s) &&
    !backtestingEnabled

/-! ### The producer state machine (`InterfaceProducer`) -/

/-- The observable state of an `InterfaceProducer` together with the message
log of its channel sends.  `interfaces`, `notifiers` and
`toCreateNotifiersCount` are the instance attributes of the Python class.
`exchangeManagerIds` mirrors `self.MEV.exchange_producer.exchange_manager_ids`,
the list replayed by `_register_existing_exchanges`.  `sent` records every
`_register_exchange` channel message as an (instance, exchange id) pair,
`flushes` counts calls to `service_api.process_pending_notifications()`,
`stopSignals` records the instances passed to
`service_managers.stop_interfaces`, and `notifierCreationRequests` records
the creation messages sent by `_create_notifier_class_if_relevant`. -/
structure ProducerState where
  interfaces : List (Option Nat)
  notifiers : List (Option Nat)
  exchangeManagerIds : List Nat
  sent : List (Option Nat × Nat)
  flushes : Nat
  toCreateNotifiersCount : Nat
  stopSignals : List (Option Nat)
  notifierCreationRequests : List Nat
deriving DecidableEq, Repr

/-- `_register_existing_exchanges` from `src/producers/interface_producer.py`
(lines 76-78): the replay messages sent to `instance`, one per id currently
in `exchange_manager_ids`, in order. -/
def register_existing_exchanges (s : ProducerState) (inst : Option Nat) :
    List (Option Nat × Nat) :=
  s.exchangeManagerIds.map (fun h => (inst, h))

/-- `register_interface` from `src/producers/interface_producer.py`
(lines 65-68): `if instance is not None:` append to `self.interfaces` and
replay every previously-seen exchange id to it; a `None` instance is
ignored entirely. -/
def register_interface (s : ProducerState) (inst : Option Nat) : ProducerState :=
  match inst with
  | none => s
  | some i =>
      { s with interfaces := s.interfaces ++ [some i],
               sent := s.sent ++ register_existing_exchanges s (some i) }

/-- `register_notifier` from `src/producers/interface_producer.py`
(lines 70-74): unconditionally append to `self.notifiers` (no `None` guard),
replay every previously-seen exchange id, then
`if len(self.notifiers) == self.to_create_notifiers_count:` run
`process_pending_notifications()` once. -/
def register_notifier (s : ProducerState) (inst : Option Nat) : ProducerState :=
  let s1 := { s with notifiers := s.notifiers ++ [inst],
                     sent := s.sent ++ register_existing_exchanges s inst }
  if s1.notifiers.length = s1.toCreateNotifiersCount
  then { s1 with flushes := s1.flushes + 1 }
  else s1

/-- `register_exchange` from `src/producers/interface_producer.py`
(lines 61-63): send the exchange id to every entry of
`self.interfaces + self.notifiers`, in order.  The update of
`exchange_manager_ids` is Modelled from the spec: the
`exchange_producer` that owns `exchange_manager_ids` is not under `src/`;
per the spec every handle ever broadcast counts as previously seen for
instances registered later, so the broadcast event also records the handle
in `exchangeManagerIds`. -/
def register_exchange (s : ProducerState) (h : Nat) : ProducerState :=
  { s with sent := s.sent ++ (s.interfaces ++ s.notifiers).map (fun v => (v, h)),
           exchangeManagerIds := s.exchangeManagerIds ++ [h] }

/-- `stop` from `src/producers/interface_producer.py` (lines 161-164):
`await service_managers.stop_interfaces(self.interfaces)` — every entry of
`self.interfaces` receives a stop signal; nothing else in the producer state
is modified. -/
def stop (s : ProducerState) : ProducerState :=
  { s with stopSignals := s.stopSignals ++ s.interfaces }

/-- `_create_notifier_class_if_relevant` from
`src/producers/interface_producer.py` (lines 116-132): when the notifier
class is relevant, send one creation message and increment
`self.to_create_notifiers_count`. -/
def create_notifier_class_if_relevant (env : BotEnv) (backtestingEnabled : Bool)
    (s : ProducerState) (c : NotifierClass) : ProducerState :=
  if is_notifier_relevant env c backtestingEnabled then
    { s with notifierCreationRequests := s.notifierCreationRequests ++ [c.name],
             toCreateNotifiersCount := s.toCreateNotifiersCount + 1 }
  else s

/-- `_create_notifiers` from `src/producers/interface_producer.py`
(lines 93-99): fold `_create_notifier_class_if_relevant` over the available
notifier classes. -/
def create_notifiers (env : BotEnv) (backtestingEnabled : Bool)
    (classes : List NotifierClass) (s : ProducerState) : ProducerState :=
  classes.foldl (create_notifier_class_if_relevant env backtestingEnabled) s

/-- The producer state right after `__init__`: empty instance lists and a
zero notifier count (`src/producers/interface_producer.py` lines 36-42),
with empty message logs. -/
def initState : ProducerState :=
  { interfaces := [], notifiers := [], exchangeManagerIds := [], sent := [],
    flushes := 0, toCreateNotifiersCount := 0, stopSignals := [],
    notifierCreationRequests := [] }

/-- The producer state after `start()` has published the notifier creation
requests: `to_create_notifiers_count` holds the number of eligible notifier
classes and no instance has registered yet. -/
def startState (env : BotEnv) (classes : List NotifierClass) (backtestingEnabled : Bool) :
    ProducerState :=
  create_notifiers env backtestingEnabled classes initState

/-- The number of eligible notifier plugins, N. -/
def eligibleNotifierCount (env : BotEnv) (classes : List NotifierClass)
    (backtestingEnabled : Bool) : Nat :=
  (classes.filter (fun c => is_notifier_relevant env c backtestingEnabled)).length

/-- The callback events a running producer can receive:
`register_interface`, `register_notifier` (instances, possibly `None`) and
`register_exchange` (an exchange handle becoming available and being
broadcast). -/
inductive PEvent where
  | regInterface (inst : Option Nat)
  | regNotifier (inst : Option Nat)
  | regExchange (h : Nat)
deriving DecidableEq, Repr

/-- One producer callback. -/
def stepEvent (s : ProducerState) (e : PEvent) : ProducerState :=
  match e with
  | PEvent.regInterface i => register_interface s i
  | PEvent.regNotifier i => register_notifier s i
  | PEvent.regExchange h => register_exchange s h

/-- A sequence of producer callbacks, applied in order. -/
def run (s : ProducerState) (t : List PEvent) : ProducerState :=
  t.foldl stepEvent s

/-- Whether event `e` registers the instance value `v` into the live lists:
`register_interface` registers its argument unless it is `None`;
`register_notifier` always registers its argument. -/
def registersInst (e : PEvent) (v : Option Nat) : Bool :=
  match e with
  | PEvent.regInterface (some i) => some i == v
  | PEvent.regInterface none => false
  | PEvent.regNotifier i => i == v
  | PEvent.regExchange _ => false

/-- Whether event `e` broadcasts the exchange handle `h`. -/
def broadcastsHandle (e : PEvent) (h : Nat) : Bool :=
  match e with
  | PEvent.regExchange h2 => h2 == h
  | _ => false

/-- Whether event `e` is a `register_notifier` call. -/
def isRegNotifier (e : PEvent) : Bool :=
  match e with
  | PEvent.regNotifier _ => true
  | _ => false

/-- How many events of the trace register the instance value `v`. -/
def regCount (t : List PEvent) (v : Option Nat) : Nat :=
  (t.filter (fun e => registersInst e v)).length

/-- How many events of the trace broadcast the handle `h`. -/
def bcastCount (t : List PEvent) (h : Nat) : Nat :=
  (t.filter (fun e => broadcastsHandle e h)).length

/-- How many events of the trace are `register_notifier` calls. -/
def numNotifierRegs (t : List PEvent) : Nat :=
  (t.filter isRegNotifier).length

/-! ## Theorems -/

/-! ### CLI-argument overrides -/

theorem apply_backtesting_args_tradingRisk (args : StartingArgs) (c : BotConfig) :
    (apply_backtesting_args args c).tradingRisk = c.tradingRisk := by
  unfold apply_backtesting_args
  split
  · split <;> rfl
  · rfl

theorem apply_simulate_args_tradingRisk (args : StartingArgs) (c : BotConfig) :
    (apply_simulate_args args c).tradingRisk = c.tradingRisk := by
  unfold apply_simulate_args
  split <;> rfl

/-- Claim C6: for every risk override value r supplied in the startup
arguments, if 0 < r ≤ 1 then the trading risk in the configuration is set
to r; otherwise (r ≤ 0, r > 1, or no override given) the configuration's
prior risk value is retained unchanged. -/
theorem risk_override_clamped (args : StartingArgs) (c : BotConfig) :
    (∀ r : Rat, args.risk = some r → 0 < r → r ≤ 1 →
      (update_config_with_args args c).tradingRisk = r) ∧
    (∀ r : Rat, args.risk = some r → ¬(0 < r ∧ r ≤ 1) →
      (update_config_with_args args c).tradingRisk = c.tradingRisk) ∧
    (args.risk = none →
      (update_config_with_args args c).tradingRisk = c.tradingRisk) := by
  unfold update_config_with_args apply_risk_args
  refine ⟨?_, ?_, ?_⟩
  · intro r hr h0 h1
    rw [hr]
    simp only []
    rw [if_pos ⟨h0, h1⟩]
  · intro r hr hn
    rw [hr]
    simp only []
    rw [if_neg hn, apply_simulate_args_tradingRisk, apply_backtesting_args_tradingRisk]
  · intro hr
    rw [hr]
    simp only []
    rw [apply_simulate_args_tradingRisk, apply_backtesting_args_tradingRisk]

/-- Witness for C6 at a concrete input: the in-range override 1 is stored. -/
theorem risk_override_clamped_witness :
    (update_config_with_args ⟨false, [], false, some 1⟩ ⟨false, [], true, false, 0⟩).tradingRisk
      = 1 :=
  (risk_override_clamped ⟨false, [], false, some 1⟩ ⟨false, [], true, false, 0⟩).1 1 rfl
    zero_lt_one (le_refl 1)

/-- Claim C7: with backtesting mode on, applying the startup arguments
leaves the configuration with trader disabled and simulator enabled, and
applying them a second time yields the same configuration, regardless of
the trader/simulator values before the call. -/
theorem backtesting_forces_simulator (args : StartingArgs) (c : BotConfig)
    (hb : args.backtesting = true) :
    (update_config_with_args args c).traderEnabled = false ∧
    (update_config_with_args args c).simulatorEnabled = true ∧
    update_config_with_args args (update_config_with_args args c) =
      update_config_with_args args c := by
  obtain ⟨b, files, sim, risk⟩ := args
  have hb2 : b = true := hb
  subst hb2
  unfold update_config_with_args apply_risk_args apply_simulate_args apply_backtesting_args
  cases risk with
  | none => cases sim <;> simp only [] <;> split_ifs <;> exact ⟨rfl, rfl, rfl⟩
  | some r => cases sim <;> simp only [] <;> split_ifs <;> exact ⟨rfl, rfl, rfl⟩

/-- Witness for C7 at a concrete input: backtesting on, one prior config. -/
theorem backtesting_forces_simulator_witness :
    (update_config_with_args ⟨true, [], false, none⟩ ⟨false, [], true, false, 1⟩).traderEnabled
        = false ∧
      (update_config_with_args ⟨true, [], false, none⟩
          ⟨false, [], true, false, 1⟩).simulatorEnabled = true ∧
      update_config_with_args ⟨true, [], false, none⟩
          (update_config_with_args ⟨true, [], false, none⟩ ⟨false, [], true, false, 1⟩) =
        update_config_with_args ⟨true, [], false, none⟩ ⟨false, [], true, false, 1⟩ :=
  backtesting_forces_simulator ⟨true, [], false, none⟩ ⟨false, [], true, false, 1⟩ rfl

/-! ### Configuration loading and repair -/

theorem read_config_repairs_le_one (env : ConfigReadEnv) : (read_config env).2 ≤ 1 := by
  obtain ⟨fr, av⟩ := env
  cases fr <;> cases av <;> decide

/-- Claim C3: for every configuration whose declared profile is missing or
invalid, startup performs exactly one repair attempt, after which it either
succeeds with the default profile loaded or fails fatally with
`NoProfileError`; it never performs a second repair attempt and never
loops. -/
theorem config_repair_exactly_once (env : ConfigReadEnv)
    (h : env.firstRead = ReadOutcome.noProfile) :
    (read_config env).2 = 1 ∧
    ((read_config env).1 = ReadResult.loaded LoadedConfig.defaultProfile ∨
      (read_config env).1 = ReadResult.failed StartupError.noProfileError) ∧
    ∀ env2 : ConfigReadEnv, (read_config env2).2 ≤ 1 := by
  obtain ⟨fr, av⟩ := env
  have hfr : fr = ReadOutcome.noProfile := h
  subst hfr
  refine ⟨?_, ?_, fun env2 => read_config_repairs_le_one env2⟩
  · cases av <;> rfl
  · cases av
    · exact Or.inr rfl
    · exact Or.inl rfl

/-- Witness for C3 at a concrete input: a missing profile with an available
default profile is repaired exactly once. -/
theorem config_repair_exactly_once_witness :
    (read_config ⟨ReadOutcome.noProfile, true⟩).2 = 1 ∧
    ((read_config ⟨ReadOutcome.noProfile, true⟩).1 =
        ReadResult.loaded LoadedConfig.defaultProfile ∨
      (read_config ⟨ReadOutcome.noProfile, true⟩).1 =
        ReadResult.failed StartupError.noProfileError) ∧
    ∀ env2 : ConfigReadEnv, (read_config env2).2 ≤ 1 :=
  config_repair_exactly_once ⟨ReadOutcome.noProfile, true⟩ rfl

/-- Claim C9: during non-first-run startup config loading, a
`NoProfileError` or `ConfigError` raised by profile resolution or schema
validation is propagated to the caller only when the tentacles directory
exists on disk; when it is absent, the error is swallowed and startup
continues with the configuration as read. -/
theorem startup_error_swallowed_without_tentacles (env : StartupEnv)
    (cfg : LoadedConfig) (e : StartupError)
    (h1 : env.configFileEmptyOrMissing = false)
    (h2 : (read_config env.readEnv).1 = ReadResult.loaded cfg)
    (h3 : profile_and_validation env = some e) :
    create_startup_config env =
      (if env.tentaclesPathIsDir then ReadResult.failed e else ReadResult.loaded cfg,
        false) := by
  unfold create_startup_config
  rw [h1]
  simp only [Bool.false_eq_true, if_false]
  rcases hrc : read_config env.readEnv with ⟨r, n⟩
  rw [hrc] at h2
  simp only [] at h2
  subst h2
  rw [h3]
  cases htd : env.tentaclesPathIsDir <;> simp

/-- Witness for C9 at a concrete input: a validation error with the
tentacles directory absent is swallowed and the configuration as read is
kept. -/
theorem startup_error_swallowed_without_tentacles_witness :
    create_startup_config
        ⟨⟨ReadOutcome.success, true⟩, some StartupError.configError, true, true, false,
          false⟩ =
      (if (false : Bool) then ReadResult.failed StartupError.configError
        else ReadResult.loaded LoadedConfig.asRead, false) :=
  startup_error_swallowed_without_tentacles
    ⟨⟨ReadOutcome.success, true⟩, some StartupError.configError, true, true, false, false⟩
    LoadedConfig.asRead StartupError.configError rfl rfl rfl

/-! ### Plugin eligibility -/

theorem is_interface_relevant_iff (env : BotEnv) (c : InterfaceClass) (b : Bool) :
    is_interface_relevant env c b = true ↔
      (c.enabled = true ∧ c.name ∈ env.activatedTentacles ∧
        (∀ s ∈ c.requiredServices, s ∈ env.enabledServices) ∧
        (b = false ∨ c.enabledInBacktesting = true)) := by
  cases b <;>
    simp [is_interface_relevant, List.all_eq_true, List.contains, and_assoc]

theorem is_notifier_relevant_iff (env : BotEnv) (c : NotifierClass) (b : Bool) :
    is_notifier_relevant env c b = true ↔
      (c.enabledInConfig = true ∧ c.name ∈ env.activatedTentacles ∧
        (∀ s ∈ c.requiredServices, s ∈ env.enabledServices) ∧ b = false) := by
  cases b <;>
    simp [is_notifier_relevant, List.all_eq_true, List.contains, and_assoc]

/-- Claim C4: a plugin descriptor is interface-eligible iff it is enabled
AND activated AND every required service reports enabled AND (backtesting
is off OR the plugin supports backtesting); it is notifier-eligible iff it
is enabled in config AND activated AND every required service reports
enabled AND backtesting is off; consequently a disabled required service
makes the descriptor ineligible for both roles. -/
theorem plugin_eligibility (env : BotEnv) (b : Bool) :
    (∀ c : InterfaceClass, is_interface_relevant env c b = true ↔
      (c.enabled = true ∧ c.name ∈ env.activatedTentacles ∧
        (∀ s ∈ c.requiredServices, s ∈ env.enabledServices) ∧
        (b = false ∨ c.enabledInBacktesting = true))) ∧
    (∀ c : NotifierClass, is_notifier_relevant env c b = true ↔
      (c.enabledInConfig = true ∧ c.name ∈ env.activatedTentacles ∧
        (∀ s ∈ c.requiredServices, s ∈ env.enabledServices) ∧ b = false)) ∧
    (∀ (c : InterfaceClass) (s : Nat), s ∈ c.requiredServices →
      s ∉ env.enabledServices → is_interface_relevant env c b = false) ∧
    (∀ (c : NotifierClass) (s : Nat), s ∈ c.requiredServices →
      s ∉ env.enabledServices → is_notifier_relevant env c b = false) := by
  refine ⟨fun c => is_interface_relevant_iff env c b,
    fun c => is_notifier_relevant_iff env c b, ?_, ?_⟩
  · intro c s hs hns
    cases hrel : is_interface_relevant env c b
    · rfl
    · exact absurd (((is_interface_relevant_iff env c b).mp hrel).2.2.1 s hs) hns
  · intro c s hs hns
    cases hrel : is_notifier_relevant env c b
    · rfl
    · exact absurd (((is_notifier_relevant_iff env c b).mp hrel).2.2.1 s hs) hns

/-- Witness for C4 at a concrete input: a plugin whose only required
service is disabled is ineligible for the interface role even though it is
enabled, activated and outside backtesting. -/
theorem plugin_eligibility_witness :
    is_interface_relevant ⟨[0], []⟩ ⟨0, true, [1], true⟩ false = false :=
  (plugin_eligibility ⟨[0], []⟩ false).2.2.1 ⟨0, true, [1], true⟩ 1 (by decide) (by decide)

/-! ### Registration with a None instance -/

/-- Claim C10: `register_interface` with a `None` instance leaves the
producer state entirely unchanged, whereas `register_notifier` has no such
guard: it appends `None` to the notifier list, replays the known exchange
handles to it, and counts it toward the notifier flush threshold. -/
theorem register_none_asymmetry (s : ProducerState) :
    register_interface s none = s ∧
    (register_notifier s none).notifiers = s.notifiers ++ [none] ∧
    (register_notifier s none).sent =
      s.sent ++ s.exchangeManagerIds.map (fun h => ((none : Option Nat), h)) ∧
    (register_notifier s none).flushes =
      (if s.notifiers.length + 1 = s.toCreateNotifiersCount then s.flushes + 1
        else s.flushes) := by
  refine ⟨rfl, ?_, ?_, ?_⟩
  · unfold register_notifier
    dsimp only
    split <;> rfl
  · unfold register_notifier register_existing_exchanges
    dsimp only
    split <;> rfl
  · unfold register_notifier
    dsimp only
    simp only [List.length_append, List.length_singleton]
    split <;> rfl

/-! ### register_interface is an append, not an idempotent set add -/

/-- Counterexample to claim C5: with exchange handle 7 already seen,
registering the same instance twice leaves a different live-instance list
than registering it once, and the replay delivers handle 7 to the instance
twice (once per registration), not at most once. -/
theorem register_interface_idempotent_counterexample :
    ((run initState
        [PEvent.regExchange 7, PEvent.regInterface (some 0),
          PEvent.regInterface (some 0)]).sent.count (some 0, 7) = 2) ∧
      (run initState
          [PEvent.regExchange 7, PEvent.regInterface (some 0),
            PEvent.regInterface (some 0)]).interfaces ≠
        (run initState [PEvent.regExchange 7, PEvent.regInterface (some 0)]).interfaces := by
  decide

/-- Claim C5 (amended): `register_interface` with a non-None instance is an
append to the live-instance list, not an idempotent set add: every call
appends the instance and replays every previously-seen exchange handle to
it once per call, so a repeated registration duplicates the list entry and
re-delivers each handle. -/
theorem register_interface_appends (s : ProducerState) (i : Nat) :
    (register_interface s (some i)).interfaces = s.interfaces ++ [some i] ∧
    (register_interface s (some i)).sent =
      s.sent ++ s.exchangeManagerIds.map (fun h => (some i, h)) :=
  ⟨rfl, rfl⟩

/-! ### stop -/

/-- Counterexample to claim C8: after one interface has registered, `stop`
does not leave the live-instance set empty. -/
theorem stop_does_not_clear_counterexample :
    (stop (run initState [PEvent.regInterface (some 0)])).interfaces ≠ [] := by
  decide

/-- Claim C8 (amended): `stop` signals every live interface instance to
stop and signals no notifier, and it leaves the producer state otherwise
unchanged — in particular the live-instance set is not cleared. -/
theorem stop_signals_interfaces_only (s : ProducerState) :
    (stop s).stopSignals = s.stopSignals ++ s.interfaces ∧
    (stop s).interfaces = s.interfaces ∧
    (stop s).notifiers = s.notifiers ∧
    (stop s).sent = s.sent ∧
    (stop s).flushes = s.flushes :=
  ⟨rfl, rfl, rfl, rfl, rfl⟩

/-! ### Trace lemmas -/

theorem run_append_event (s : ProducerState) (t : List PEvent) (e : PEvent) :
    run s (t ++ [e]) = stepEvent (run s t) e := by
  simp [run, List.foldl_append]

theorem regCount_append (t : List PEvent) (e : PEvent) (v : Option Nat) :
    regCount (t ++ [e]) v = regCount t v + (if registersInst e v then 1 else 0) := by
  cases he : registersInst e v <;>
    simp [regCount, List.filter_append, List.filter_cons, he]

theorem bcastCount_append (t : List PEvent) (e : PEvent) (h : Nat) :
    bcastCount (t ++ [e]) h = bcastCount t h + (if broadcastsHandle e h then 1 else 0) := by
  cases he : broadcastsHandle e h <;>
    simp [bcastCount, List.filter_append, List.filter_cons, he]

theorem numNotifierRegs_append (t : List PEvent) (e : PEvent) :
    numNotifierRegs (t ++ [e]) = numNotifierRegs t + (if isRegNotifier e then 1 else 0) := by
  cases he : isRegNotifier e <;>
    simp [numNotifierRegs, List.filter_append, List.filter_cons, he]

theorem count_map_pair_left (inst v : Option Nat) (h : Nat) (l : List Nat) :
    (l.map (fun x => (inst, x))).count (v, h) = if inst = v then l.count h else 0 := by
  induction l with
  | nil => simp
  | cons x xs ih =>
      by_cases hiv : inst = v
      · subst hiv
        by_cases hxh : x = h
        · subst hxh
          simp [List.count_cons, ih]
        · simp [List.count_cons, ih, hxh]
      · simp [List.count_cons, ih, hiv, Prod.ext_iff]

theorem count_map_pair_right (h2 h : Nat) (v : Option Nat) (l : List (Option Nat)) :
    (l.map (fun w => (w, h2))).count (v, h) = if h2 = h then l.count v else 0 := by
  induction l with
  | nil => simp
  | cons x xs ih =>
      by_cases hh : h2 = h
      · subst hh
        by_cases hxv : x = v
        · subst hxv
          simp [List.count_cons, ih]
        · simp [List.count_cons, ih, hxv]
      · simp [List.count_cons, ih, hh, Prod.ext_iff]

theorem register_notifier_fields (s : ProducerState) (i : Option Nat) :
    (register_notifier s i).sent = s.sent ++ register_existing_exchanges s i ∧
    (register_notifier s i).interfaces = s.interfaces ∧
    (register_notifier s i).notifiers = s.notifiers ++ [i] ∧
    (register_notifier s i).exchangeManagerIds = s.exchangeManagerIds ∧
    (register_notifier s i).toCreateNotifiersCount = s.toCreateNotifiersCount := by
  unfold register_notifier
  dsimp only
  split <;> exact ⟨rfl, rfl, rfl, rfl, rfl⟩

theorem stepEvent_sent_count (s : ProducerState) (e : PEvent) (v : Option Nat) (h : Nat) :
    (stepEvent s e).sent.count (v, h) =
      s.sent.count (v, h) +
        (if registersInst e v then s.exchangeManagerIds.count h else 0) +
        (if broadcastsHandle e h then (s.interfaces ++ s.notifiers).count v else 0) := by
  cases e with
  | regInterface i =>
      cases i with
      | none => simp [stepEvent, register_interface, registersInst, broadcastsHandle]
      | some j =>
          simp [stepEvent, register_interface, register_existing_exchanges, registersInst,
            broadcastsHandle, List.count_append, count_map_pair_left]
  | regNotifier i =>
      rw [show stepEvent s (PEvent.regNotifier i) = register_notifier s i from rfl,
        (register_notifier_fields s i).1]
      simp [register_existing_exchanges, registersInst, broadcastsHandle,
        List.count_append, count_map_pair_left]
  | regExchange h2 =>
      simp [stepEvent, register_exchange, registersInst, broadcastsHandle,
        List.count_append, count_map_pair_right]
      split_ifs <;> omega

theorem stepEvent_live_count (s : ProducerState) (e : PEvent) (v : Option Nat) :
    ((stepEvent s e).interfaces ++ (stepEvent s e).notifiers).count v =
      (s.interfaces ++ s.notifiers).count v + (if registersInst e v then 1 else 0) := by
  cases e with
  | regInterface i =>
      cases i with
      | none => simp [stepEvent, register_interface, registersInst]
      | some j =>
          simp [stepEvent, register_interface, registersInst, List.count_append,
            List.count_cons]
          split <;> omega
  | regNotifier i =>
      obtain ⟨-, h2, h3, -, -⟩ := register_notifier_fields s i
      rw [show stepEvent s (PEvent.regNotifier i) = register_notifier s i from rfl, h2, h3]
      simp [registersInst, List.count_append, List.count_cons]
      try split <;> omega
  | regExchange h2 =>
      simp [stepEvent, register_exchange, registersInst]

theorem stepEvent_ids_count (s : ProducerState) (e : PEvent) (h : Nat) :
    (stepEvent s e).exchangeManagerIds.count h =
      s.exchangeManagerIds.count h + (if broadcastsHandle e h then 1 else 0) := by
  cases e with
  | regInterface i =>
      cases i <;> simp [stepEvent, register_interface, broadcastsHandle]
  | regNotifier i =>
      obtain ⟨-, -, -, h4, -⟩ := register_notifier_fields s i
      rw [show stepEvent s (PEvent.regNotifier i) = register_notifier s i from rfl, h4]
      simp [broadcastsHandle]
  | regExchange h2 =>
      simp [stepEvent, register_exchange, broadcastsHandle, List.count_append,
        List.count_cons]

theorem registers_and_broadcasts_exclusive (e : PEvent) (v : Option Nat) (h : Nat) :
    ¬(registersInst e v = true ∧ broadcastsHandle e h = true) := by
  cases e with
  | regInterface i => cases i <;> simp [registersInst, broadcastsHandle]
  | regNotifier i => simp [registersInst, broadcastsHandle]
  | regExchange h2 => simp [registersInst, broadcastsHandle]

/-- Core delivery invariant: starting from a state in which the instance
value `v` is not live, the handle `h` is unknown and no (v, h) message has
been sent, after any callback trace the multiplicity of `v` among the live
instances equals the number of events registering `v`, the multiplicity of
`h` among the known exchange ids equals the number of events broadcasting
`h`, and the number of (v, h) delivery messages equals their product. -/
theorem run_counts (v : Option Nat) (h : Nat) (s0 : ProducerState)
    (h1 : (s0.interfaces ++ s0.notifiers).count v = 0)
    (h2 : s0.exchangeManagerIds.count h = 0)
    (h3 : s0.sent.count (v, h) = 0) (t : List PEvent) :
    ((run s0 t).interfaces ++ (run s0 t).notifiers).count v = regCount t v ∧
    (run s0 t).exchangeManagerIds.count h = bcastCount t h ∧
    (run s0 t).sent.count (v, h) = regCount t v * bcastCount t h := by
  induction t using List.reverseRecOn with
  | nil =>
      refine ⟨?_, ?_, ?_⟩
      · simpa [run, regCount] using h1
      · simpa [run, bcastCount] using h2
      · simpa [run, regCount, bcastCount] using h3
  | append_singleton t e ih =>
      obtain ⟨ia, ib, ic⟩ := ih
      rw [run_append_event, stepEvent_live_count, stepEvent_ids_count, stepEvent_sent_count,
        ia, ib, ic, regCount_append, bcastCount_append]
      refine ⟨rfl, rfl, ?_⟩
      have hne := registers_and_broadcasts_exclusive e v h
      split_ifs with ha hb hb
      · exact absurd ⟨ha, hb⟩ hne
      · ring
      · ring
      · ring

/-! ### start() bookkeeping -/

theorem create_notifiers_fields (env : BotEnv) (b : Bool) (classes : List NotifierClass) :
    ∀ s : ProducerState,
      (create_notifiers env b classes s).interfaces = s.interfaces ∧
      (create_notifiers env b classes s).notifiers = s.notifiers ∧
      (create_notifiers env b classes s).exchangeManagerIds = s.exchangeManagerIds ∧
      (create_notifiers env b classes s).sent = s.sent ∧
      (create_notifiers env b classes s).flushes = s.flushes ∧
      (create_notifiers env b classes s).toCreateNotifiersCount =
        s.toCreateNotifiersCount + eligibleNotifierCount env classes b := by
  induction classes with
  | nil =>
      intro s
      simp [create_notifiers, eligibleNotifierCount]
  | cons c cs ih =>
      intro s
      have hstep : create_notifiers env b (c :: cs) s =
          create_notifiers env b cs (create_notifier_class_if_relevant env b s c) := by
        simp [create_notifiers]
      obtain ⟨j1, j2, j3, j4, j5, j6⟩ := ih (create_notifier_class_if_relevant env b s c)
      rw [hstep, j1, j2, j3, j4, j5, j6]
      have hcc : eligibleNotifierCount env (c :: cs) b =
          (if is_notifier_relevant env c b then 1 else 0) +
            eligibleNotifierCount env cs b := by
        cases hc : is_notifier_relevant env c b
        · simp [eligibleNotifierCount, List.filter_cons, hc]
        · simp [eligibleNotifierCount, List.filter_cons, hc]
          omega
      rw [hcc]
      by_cases hc : is_notifier_relevant env c b = true
      · simp [create_notifier_class_if_relevant, hc]
        omega
      · simp [create_notifier_class_if_relevant, hc]

/-! ### The notifier flush -/

theorem stepEvent_flush_fields (s : ProducerState) (e : PEvent) :
    (stepEvent s e).toCreateNotifiersCount = s.toCreateNotifiersCount ∧
    (stepEvent s e).notifiers.length =
      s.notifiers.length + (if isRegNotifier e then 1 else 0) ∧
    (stepEvent s e).flushes =
      s.flushes + (if isRegNotifier e = true ∧
        s.notifiers.length + 1 = s.toCreateNotifiersCount then 1 else 0) := by
  cases e with
  | regInterface i =>
      cases i <;> simp [stepEvent, register_interface, isRegNotifier]
  | regExchange h => simp [stepEvent, register_exchange, isRegNotifier]
  | regNotifier i =>
      refine ⟨(register_notifier_fields s i).2.2.2.2, ?_, ?_⟩
      · rw [show stepEvent s (PEvent.regNotifier i) = register_notifier s i from rfl,
          (register_notifier_fields s i).2.2.1]
        simp [isRegNotifier]
      · rw [show stepEvent s (PEvent.regNotifier i) = register_notifier s i from rfl]
        unfold register_notifier
        dsimp only
        simp only [List.length_append, List.length_singleton, isRegNotifier, true_and]
        split <;> rfl

/-- Flush invariant: from a producer state with no registered notifier and
no flush yet, after any callback trace the notifier count is unchanged, the
notifier list length equals the number of `register_notifier` calls, and
the flush has fired exactly once iff that number has reached the (positive)
recorded threshold. -/
theorem run_flushes (s0 : ProducerState) (hn : s0.notifiers = []) (hf : s0.flushes = 0)
    (t : List PEvent) :
    (run s0 t).toCreateNotifiersCount = s0.toCreateNotifiersCount ∧
    (run s0 t).notifiers.length = numNotifierRegs t ∧
    (run s0 t).flushes =
      (if 0 < s0.toCreateNotifiersCount ∧
          s0.toCreateNotifiersCount ≤ numNotifierRegs t then 1 else 0) := by
  induction t using List.reverseRecOn with
  | nil =>
      refine ⟨rfl, ?_, ?_⟩
      · simp [run, numNotifierRegs, hn]
      · rw [show run s0 [] = s0 from rfl, hf]
        split_ifs with hcond
        · simp [numNotifierRegs] at hcond
          omega
        · rfl
  | append_singleton t e ih =>
      obtain ⟨ha, hb, hc⟩ := ih
      rw [run_append_event]
      obtain ⟨f1, f2, f3⟩ := stepEvent_flush_fields (run s0 t) e
      refine ⟨by rw [f1, ha], ?_, ?_⟩
      · rw [f2, hb, numNotifierRegs_append]
      · rw [f3, hc, hb, ha, numNotifierRegs_append]
        cases he : isRegNotifier e
        · simp only [he, Bool.false_eq_true, false_and, if_false, add_zero]
        · simp only [he, true_and, if_true]
          split_ifs <;> omega

/-! ### Claims C1 and C2 -/

/-- Claim C1: with N the number of eligible notifier plugins recorded
during start(), the pending-notification flush fires exactly once, exactly
when the Nth `register_notifier` call arrives: after any callback trace the
number of flushes is 1 if N is positive and at least N notifier
registrations have happened, and 0 otherwise — so further registrations
never fire it twice and with N = 0 it never fires at all. -/
theorem notifier_flush_fires_exactly_once (env : BotEnv)
    (classes : List NotifierClass) (b : Bool) (t : List PEvent) :
    (run (startState env classes b) t).flushes =
      (if 0 < eligibleNotifierCount env classes b ∧
          eligibleNotifierCount env classes b ≤ numNotifierRegs t then 1 else 0) := by
  obtain ⟨-, g2, -, -, g5, g6⟩ := create_notifiers_fields env b classes initState
  have hflush := (run_flushes (startState env classes b) g2 g5 t).2.2
  rw [hflush]
  unfold startState
  rw [g6, show initState.toCreateNotifiersCount = 0 from rfl, Nat.zero_add]

/-- Claim C2: for every instance value registered exactly once over a
callback trace and every exchange handle broadcast exactly once over it,
the producer sends that instance exactly one delivery message for that
handle — whether the instance registered before the broadcast (delivery via
the broadcast) or after it (delivery via the replay performed inside
`register_interface`/`register_notifier`); no instance receives a handle
twice and no live instance misses one. -/
theorem exchange_handle_delivered_exactly_once (env : BotEnv)
    (classes : List NotifierClass) (b : Bool) (v : Option Nat) (h : Nat)
    (t : List PEvent) (hreg : regCount t v = 1) (hbc : bcastCount t h = 1) :
    (run (startState env classes b) t).sent.count (v, h) = 1 := by
  obtain ⟨g1, g2, g3, g4, -, -⟩ := create_notifiers_fields env b classes initState
  have hcounts := (run_counts v h (startState env classes b)
    (by rw [show startState env classes b = create_notifiers env b classes initState from rfl,
          g1, g2]; rfl)
    (by rw [show startState env classes b = create_notifiers env b classes initState from rfl,
          g3]; rfl)
    (by rw [show startState env classes b = create_notifiers env b classes initState from rfl,
          g4]; rfl) t).2.2
  rw [hcounts, hreg, hbc]

/-- Witness for C2 at a concrete input: one instance registered once, one
handle broadcast once after it, delivered exactly once. -/
theorem exchange_handle_delivered_exactly_once_witness :
    (run (startState ⟨[], []⟩ [] false)
        [PEvent.regInterface (some 0), PEvent.regExchange 5]).sent.count (some 0, 5) = 1 :=
  exchange_handle_delivered_exactly_once ⟨[], []⟩ [] false (some 0) 5
    [PEvent.regInterface (some 0), PEvent.regExchange 5] (by decide) (by decide)

end MEVBot
